import Mathlib

/-!
Verification of the `cxapian` C binding (src/cxapian.cc, src/cxapian.h).

The binding wraps a handful of Xapian entry points: database open (readable
and writable), document construction and mutation, query construction,
combination and description, and enquire setup.  We give a shallow embedding
of each exported function and prove the specified properties about it.

Conventions of the embedding:
* C byte sequences are `List Nat`; `std::string(const char *)` reads bytes up
  to the first NUL, which we model explicitly (`cstring`).
* Heap-allocated query objects handed across the C boundary are modelled by a
  heap (`QueryHeap`, a list of allocated query values) and handles are indices
  into it; `new` appends a cell.
* Behaviour of the wrapped Xapian library itself is not part of this
  repository; where a property depends on it, the library call is either a
  parameter of the embedded function (the open constructors) or a definition
  whose doc comment starts with `Modelled from the spec:`.
* C++ object lifetimes, needed for the error-pointer property, are modelled
  by a provenance tag on pointers (`Region`) saying which storage the pointer
  points into, together with which regions are still alive after the call
  returns.
-/

namespace CXapian

/-- A C byte sequence (each element one byte). -/
abbrev Bytes := List Nat

/-- Embedding of `std::string(const char *s)`: the constructed string holds the
bytes of `s` up to, and excluding, the first NUL byte. -/
def cstring (data : Bytes) : Bytes := data.takeWhile (fun b => b != 0)

/-- Conversion of a C `int` value to the library's 32-bit unsigned position
type (`Xapian::termpos`), as performed implicitly at the call
`add_posting(std::string(posting), pos)` in src/cxapian.cc:94. -/
def uint32OfInt (p : Int) : Nat := (p % (2 ^ 32)).toNat

/-- Embedding of `Xapian::Document` as used by the binding: opaque data bytes
plus the incrementally added postings, each a (term, position) pair. -/
structure XapianDocument where
  data : Bytes
  postings : List (Bytes × Nat)
deriving Repr, DecidableEq

/-- Embedding of `xapian_document_new` (src/cxapian.cc:71-77): allocates a
fresh `Xapian::Document()` — empty data, no postings — and returns its handle
unconditionally; the function has no error out-parameter. -/
def xapian_document_new : XapianDocument := ⟨[], []⟩

/-- Embedding of `xapian_document_set_data` (src/cxapian.cc:85-89):
`doc->xapian_document->set_data(std::string(data))` — the stored data is the
C-string read of the caller's pointer. -/
def xapian_document_set_data (doc : XapianDocument) (data : Bytes) : XapianDocument :=
  { doc with data := cstring data }

/-- Embedding of `xapian_document_add_posting` (src/cxapian.cc:91-95):
`add_posting(std::string(posting), pos)` where `pos` is a C `int` converted to
the unsigned position type. -/
def xapian_document_add_posting (doc : XapianDocument) (posting : Bytes) (pos : Int) :
    XapianDocument :=
  { doc with postings := doc.postings ++ [(cstring posting, uint32OfInt pos)] }

/-- Embedding of `Xapian::Query` values: a term leaf or a combination node
with an integer operator code (the binding passes the C `int` through a cast
`(Xapian::Query::op) op`, src/cxapian.cc:124). -/
inductive XQuery where
  | term : String → XQuery
  | combine : Int → XQuery → XQuery → XQuery
deriving Repr, DecidableEq

/-- Operator code `Xapian::Query::OP_AND`. -/
def OP_AND : Int := 0

/-- Operator code `Xapian::Query::OP_OR`. -/
def OP_OR : Int := 1

/-- Modelled from the spec: the recognized query operator codes of the wrapped
library's `Xapian::Query::op` enumeration (OP_AND = 0 through OP_VALUE_LE = 12);
any other integer is not a recognized operator. -/
def recognizedOp (op : Int) : Bool := 0 ≤ op && op ≤ 12

/-- Modelled from the spec: textual name of an operator in the canonical query
description (the rendering function `Xapian::Query::get_description` is in the
wrapped library, not in src/). -/
def opText (op : Int) : String :=
  if op = 0 then "AND"
  else if op = 1 then "OR"
  else if op = 2 then "AND_NOT"
  else if op = 3 then "XOR"
  else if op = 4 then "AND_MAYBE"
  else if op = 5 then "FILTER"
  else "OP" ++ toString op

/-- Modelled from the spec: `Xapian::Query::get_description` (wrapped library,
not in src/) renders a canonical, deterministic textual form, with the operands
of a combination rendered in the order they were given at construction. -/
def XQuery.get_description : XQuery → String
  | XQuery.term t => t
  | XQuery.combine op a b =>
      "(" ++ a.get_description ++ " " ++ opText op ++ " " ++ b.get_description ++ ")"

/-- The heap of query objects allocated by the binding; a query handle is an
index of an allocated cell. -/
abbrev QueryHeap := List XQuery

/-- A query handle: index of an allocated cell in the query heap. -/
abbrev QueryHandle := Nat

/-- Dereference a query handle (out-of-range handles read a default, standing
for the undefined behaviour of a wild pointer; all theorems below keep handles
in range). -/
def heapRead (h : QueryHeap) (q : QueryHandle) : XQuery := h.getD q (XQuery.term "")

/-- Embedding of `xapian_query_new` (src/cxapian.cc:112-118): allocates a new
`Xapian::Query(std::string(term))` leaf and returns its handle unconditionally;
the function has no error out-parameter. -/
def xapian_query_new (h : QueryHeap) (term : String) : QueryHeap × QueryHandle :=
  (h ++ [XQuery.term term], h.length)

/-- Embedding of `xapian_query_combine` (src/cxapian.cc:120-128): allocates a
new `Xapian::Query((Xapian::Query::op) op, *qa, *qb)` node — the operator code
is cast, not validated — reading the operand query objects, and returns the new
handle unconditionally; the function has no error out-parameter. -/
def xapian_query_combine (h : QueryHeap) (op : Int) (qa qb : QueryHandle) :
    QueryHeap × QueryHandle :=
  (h ++ [XQuery.combine op (heapRead h qa) (heapRead h qb)], h.length)

/-- Embedding of `xapian_query_describe` (src/cxapian.cc:130-133): returns the
description of the query object behind the handle. -/
def xapian_query_describe (h : QueryHeap) (q : QueryHandle) : String :=
  (heapRead h q).get_description

/-- Embedding of a database handle: per the spec the database is an immutable
versioned snapshot; the embedding tracks the snapshot version. -/
structure XapianDb where
  snapshot : Nat
deriving Repr, DecidableEq

/-- Outcome of the underlying library constructor call made inside the `try`
block of the open functions (`new Xapian::WritableDatabase(filename, options)`
resp. `new Xapian::Database(filename)`): either a database, or a thrown
`Xapian::Error` carrying a message string. -/
inductive OpenResult where
  | ok : XapianDb → OpenResult
  | err : String → OpenResult
deriving Repr, DecidableEq

/-- Embedding of `xapian_writable_db_new` (src/cxapian.cc:24-39), parameterized
by the outcome of the library constructor.  On success the new handle is
returned and the caller's `errorStr` cell is untouched; on a caught
`Xapian::Error` the message is stored through `errorStr` and NULL (`none`) is
returned. -/
def xapian_writable_db_new (ctor : OpenResult) (errorStr : Option String) :
    Option XapianDb × Option String :=
  match ctor with
  | OpenResult.ok db => (some db, errorStr)
  | OpenResult.err msg => (none, some msg)

/-- Embedding of `xapian_database_new` (src/cxapian.cc:49-63); same shape as
`xapian_writable_db_new`. -/
def xapian_database_new (ctor : OpenResult) (errorStr : Option String) :
    Option XapianDb × Option String :=
  match ctor with
  | OpenResult.ok db => (some db, errorStr)
  | OpenResult.err msg => (none, some msg)

/-- Embedding of an enquire object: binds one database
(src/cxapian.cc:97-103). -/
structure XapianEnquire where
  db : XapianDb
deriving Repr, DecidableEq

/-- Embedding of `xapian_enquire_new` (src/cxapian.cc:97-103): allocates an
`Xapian::Enquire` bound to the database and returns its handle unconditionally;
the function has no error out-parameter. -/
def xapian_enquire_new (db : XapianDb) : XapianEnquire := ⟨db⟩

/-- Mutable writable-database state visible through the binding: the next
sequential document id and the stored documents. -/
structure WDbState where
  nextId : Nat
  docs : List (Nat × XapianDocument)
deriving Repr, DecidableEq

/-- Modelled from the spec: `Xapian::WritableDatabase::add_document` (wrapped
library, not in src/) appends the document, assigns the next sequential
document id in the writer's lifetime, and returns that id. -/
def WritableDatabase.add_document (db : WDbState) (doc : XapianDocument) :
    Nat × WDbState :=
  (db.nextId, ⟨db.nextId + 1, db.docs ++ [(db.nextId, doc)]⟩)

/-- Embedding of `xapian_writable_db_add_document` (src/cxapian.cc:41-47): the
C function has return type `void`; it calls the library `add_document` and
discards the document id the library returns, so the caller-visible result is
unit. -/
def xapian_writable_db_add_document (db : WDbState) (doc : XapianDocument) :
    Unit × WDbState :=
  ((), (WritableDatabase.add_document db doc).2)

/-- Memory regions a C string pointer produced by the binding can point into:
storage owned by the caller, or the internal storage of the in-flight exception
object caught in an open function's handler. -/
inductive Region where
  | callerOwned : Region
  | exceptionStorage : Region
deriving Repr, DecidableEq

/-- A C pointer, tracked by the region it points into. -/
structure CPtr where
  region : Region
deriving Repr, DecidableEq

/-- A C++ `std::string` together with the region owning its character
buffer. -/
structure CxxString where
  buffer : Region
  content : String
deriving Repr, DecidableEq

/-- A `Xapian::Error` exception object together with the region owning its
internal message storage. -/
structure XapianError where
  msgStorage : Region
  msg : String
deriving Repr, DecidableEq

/-- `Xapian::Error::get_msg()` returns a reference to the message string held
inside the exception object itself, so the resulting string's buffer lives in
the exception's storage. -/
def XapianError.get_msg (e : XapianError) : CxxString := ⟨e.msgStorage, e.msg⟩

/-- `std::string::c_str()` returns a pointer into the string's own buffer. -/
def CxxString.c_str (s : CxxString) : CPtr := ⟨s.buffer⟩

/-- The exception caught as `const Xapian::Error & error` in the handlers of
src/cxapian.cc:34 and src/cxapian.cc:58 is the in-flight exception object; its
internal storage is the exception's own, destroyed when the handler exits. -/
def caughtError (msg : String) : XapianError := ⟨Region.exceptionStorage, msg⟩

/-- Which regions are still alive once the open call has returned: the caught
exception object has been destroyed at the end of its handler, so only
caller-owned storage survives. -/
def aliveAfterReturn : Region → Bool
  | Region.callerOwned => true
  | Region.exceptionStorage => false

/-- Provenance of the pointer stored by `*errorStr = error.get_msg().c_str();`
on the failure path of `xapian_writable_db_new` (src/cxapian.cc:35). -/
def xapian_writable_db_new_failure_errorStr (msg : String) : CPtr :=
  ((caughtError msg).get_msg).c_str

/-- Provenance of the pointer stored by `*errorStr = error.get_msg().c_str();`
on the failure path of `xapian_database_new` (src/cxapian.cc:59). -/
def xapian_database_new_failure_errorStr (msg : String) : CPtr :=
  ((caughtError msg).get_msg).c_str

/-- Modelled from the spec: the per-path storage state the wrapped library's
open constructors consult — whether a writer currently holds the path lock,
and the last committed snapshot. -/
structure PathState where
  writerLockHeld : Bool
  committedSnapshot : XapianDb
deriving Repr, DecidableEq

/-- Modelled from the spec: the library `Xapian::WritableDatabase` constructor
(wrapped library, not in src/) on a path whose lock is held by another writer
fails with a LockHeldError instead of blocking; otherwise it opens the
database. -/
def libOpenWritable (ps : PathState) : OpenResult :=
  if ps.writerLockHeld then OpenResult.err "LockHeldError" else
    OpenResult.ok ps.committedSnapshot

/-- Modelled from the spec: the library `Xapian::Database` (reader) constructor
(wrapped library, not in src/) succeeds concurrently with a writer on the same
path and returns the last committed snapshot. -/
def libOpenReadable (ps : PathState) : OpenResult :=
  OpenResult.ok ps.committedSnapshot

/-! Helper lemmas about the query heap. -/

/-- Reading the freshly allocated cell returns the allocated value. -/
theorem heapRead_concat (h : QueryHeap) (x : XQuery) :
    heapRead (h ++ [x]) h.length = x := by
  induction h with
  | nil => rfl
  | cons a t ih => simp [heapRead, List.getD]

/-- Allocation does not change the value behind any in-range handle. -/
theorem heapRead_concat_lt (h : QueryHeap) (x : XQuery) (i : Nat) (hi : i < h.length) :
    heapRead (h ++ [x]) i = heapRead h i := by
  induction h generalizing i with
  | nil => exact absurd hi (Nat.not_lt_zero i)
  | cons a t ih =>
      cases i with
      | zero => rfl
      | succ j =>
          have hj : j < t.length := Nat.lt_of_succ_lt_succ hi
          simpa [heapRead, List.getD] using ih j hj

/-! Claim theorems. -/

/-- C1: each database-open operation (`xapian_writable_db_new` and
`xapian_database_new`) either returns a non-NULL handle and leaves the caller's
`errorStr` cell untouched, or — when the library constructor fails — stores the
error message through `errorStr` and returns NULL; it never returns a handle
and an error together. -/
theorem open_returns_handle_xor_error (ctor : OpenResult) (e0 : Option String) :
    ((∃ db, xapian_writable_db_new ctor e0 = (some db, e0)) ∨
      (∃ msg, ctor = OpenResult.err msg ∧
        xapian_writable_db_new ctor e0 = (none, some msg))) ∧
    ((∃ db, xapian_database_new ctor e0 = (some db, e0)) ∨
      (∃ msg, ctor = OpenResult.err msg ∧
        xapian_database_new ctor e0 = (none, some msg))) := by
  cases ctor with
  | ok db =>
      exact ⟨Or.inl ⟨db, rfl⟩, Or.inl ⟨db, rfl⟩⟩
  | err msg =>
      exact ⟨Or.inr ⟨msg, rfl, rfl⟩, Or.inr ⟨msg, rfl, rfl⟩⟩

/-- C2: on the failure path of both open functions, the pointer stored through
`*errorStr` is `error.get_msg().c_str()`, a pointer into the caught exception
object's internal storage; that region is not alive once the open call has
returned (the exception is destroyed at the end of the handler), so the stored
pointer dangles. -/
theorem open_failure_errorStr_dangles (msg : String) :
    (xapian_writable_db_new_failure_errorStr msg).region = Region.exceptionStorage ∧
    aliveAfterReturn (xapian_writable_db_new_failure_errorStr msg).region = false ∧
    (xapian_database_new_failure_errorStr msg).region = Region.exceptionStorage ∧
    aliveAfterReturn (xapian_database_new_failure_errorStr msg).region = false := by
  exact ⟨rfl, rfl, rfl, rfl⟩

/-- C3: describing `combine(AND, termQuery a, termQuery b)` is deterministic
across repeated calls with identical inputs — combining the same operand
handles twice in succession yields handles with equal descriptions — and the
rendered form lists the operands in the order given to combine ("a" before
"b"). -/
theorem describe_combine_deterministic_ordered :
    xapian_query_describe
        (xapian_query_combine
          (xapian_query_combine [XQuery.term "a", XQuery.term "b"] OP_AND 0 1).1
          OP_AND 0 1).1
        (xapian_query_combine
          (xapian_query_combine [XQuery.term "a", XQuery.term "b"] OP_AND 0 1).1
          OP_AND 0 1).2 =
      xapian_query_describe
        (xapian_query_combine [XQuery.term "a", XQuery.term "b"] OP_AND 0 1).1
        (xapian_query_combine [XQuery.term "a", XQuery.term "b"] OP_AND 0 1).2 ∧
    xapian_query_describe
        (xapian_query_combine [XQuery.term "a", XQuery.term "b"] OP_AND 0 1).1
        (xapian_query_combine [XQuery.term "a", XQuery.term "b"] OP_AND 0 1).2 =
      "(a AND b)" := by
  constructor <;> rfl

/-- C4 counterexample: 999 is not a recognized operator code, yet
`xapian_query_combine` does not fail — it builds and returns a handle to a
combination node carrying the unvalidated code. -/
theorem combine_unrecognized_op_builds_node :
    recognizedOp 999 = false ∧
    heapRead (xapian_query_combine [XQuery.term "a", XQuery.term "b"] 999 0 1).1
        (xapian_query_combine [XQuery.term "a", XQuery.term "b"] 999 0 1).2 =
      XQuery.combine 999 (XQuery.term "a") (XQuery.term "b") := by
  exact ⟨rfl, rfl⟩

/-- C4 amended: `xapian_query_combine` performs no validation of the operator
code and has no error-signalling path: for every integer code, recognized or
not, it casts the code and builds a query node, returning a handle to it. -/
theorem combine_accepts_any_op (h : QueryHeap) (op : Int) (qa qb : QueryHandle) :
    heapRead (xapian_query_combine h op qa qb).1 (xapian_query_combine h op qa qb).2 =
      XQuery.combine op (heapRead h qa) (heapRead h qb) := by
  exact heapRead_concat h (XQuery.combine op (heapRead h qa) (heapRead h qb))

/-- C5 counterexample: the caller-visible result of
`xapian_writable_db_add_document` is `void`: no function of that result can
recover the assigned document id, since writers about to assign the different
ids 1 and 5 produce identical caller-visible results. -/
theorem add_document_id_not_returned :
    ¬ ∃ f : Unit → Nat, ∀ (db : WDbState) (doc : XapianDocument),
        f (xapian_writable_db_add_document db doc).1 =
          (WritableDatabase.add_document db doc).1 := by
  rintro ⟨f, hf⟩
  have h1 := hf ⟨1, []⟩ xapian_document_new
  have h5 := hf ⟨5, []⟩ xapian_document_new
  simp [xapian_writable_db_add_document, WritableDatabase.add_document] at h1 h5
  rw [h1] at h5
  exact absurd h5 (by decide)

/-- C5 amended: adding a document assigns it the next sequential id in the
writer's lifetime (the library returns that id), but the binding's
`xapian_writable_db_add_document` has return type void and discards the id, so
it is not returned to the caller. -/
theorem add_document_assigns_sequential_id (db : WDbState) (doc : XapianDocument) :
    (WritableDatabase.add_document db doc).1 = db.nextId ∧
    (xapian_writable_db_add_document db doc).2 =
      ⟨db.nextId + 1, db.docs ++ [(db.nextId, doc)]⟩ ∧
    (xapian_writable_db_add_document db doc).1 = () := by
  exact ⟨rfl, rfl, rfl⟩

/-- C6 counterexample: passing the byte sequence `[97, 0, 98]` ("a", NUL, "b")
to `xapian_document_set_data` stores only `[97]` — the `std::string(const
char*)` read truncates at the interior NUL — so the stored data does not equal
the bytes supplied. -/
theorem set_data_truncates_at_interior_nul :
    (xapian_document_set_data xapian_document_new [97, 0, 98]).data = [97] ∧
    (xapian_document_set_data xapian_document_new [97, 0, 98]).data ≠ [97, 0, 98] := by
  exact ⟨rfl, by decide⟩

/-- C6 amended: the stored data is the supplied bytes up to the first NUL; in
particular, for every byte sequence containing no NUL byte, the stored data
equals exactly the bytes supplied (interior NULs cannot be represented through
the `const char *` interface). -/
theorem set_data_exact_without_nul (doc : XapianDocument) (data : Bytes)
    (hnz : ∀ b ∈ data, b ≠ 0) :
    (xapian_document_set_data doc data).data = data := by
  simp only [xapian_document_set_data, cstring]
  induction data with
  | nil => rfl
  | cons a t ih =>
      have ha : a ≠ 0 := hnz a (List.mem_cons_self a t)
      have ht : ∀ b ∈ t, b ≠ 0 := fun b hb => hnz b (List.mem_cons_of_mem a hb)
      have ha2 : (a != 0) = true := bne_iff_ne.mpr ha
      simp [List.takeWhile, ha2, ih ht]

/-- C6 amended, witness at a concrete NUL-free input. -/
theorem set_data_exact_without_nul_witness :
    (xapian_document_set_data xapian_document_new [97, 98]).data = [97, 98] :=
  set_data_exact_without_nul xapian_document_new [97, 98] (by decide)

/-- C7: `xapian_query_combine` is pure on its operands: it allocates a new
node and leaves the operand query objects unchanged — their described values
before and after the call are equal. -/
theorem combine_leaves_operands_unchanged (h : QueryHeap) (op : Int)
    (qa qb : QueryHandle) (hqa : qa < h.length) (hqb : qb < h.length) :
    xapian_query_describe (xapian_query_combine h op qa qb).1 qa =
      xapian_query_describe h qa ∧
    xapian_query_describe (xapian_query_combine h op qa qb).1 qb =
      xapian_query_describe h qb := by
  unfold xapian_query_describe xapian_query_combine
  rw [heapRead_concat_lt h _ qa hqa, heapRead_concat_lt h _ qb hqb]
  exact ⟨rfl, rfl⟩

/-- C7 witness at a concrete heap and handles. -/
theorem combine_leaves_operands_unchanged_witness :
    xapian_query_describe
        (xapian_query_combine [XQuery.term "a", XQuery.term "b"] OP_AND 0 1).1 0 =
      xapian_query_describe [XQuery.term "a", XQuery.term "b"] 0 ∧
    xapian_query_describe
        (xapian_query_combine [XQuery.term "a", XQuery.term "b"] OP_AND 0 1).1 1 =
      xapian_query_describe [XQuery.term "a", XQuery.term "b"] 1 :=
  combine_leaves_operands_unchanged [XQuery.term "a", XQuery.term "b"] OP_AND 0 1
    (by decide) (by decide)

/-- C8: `xapian_document_add_posting` records for (t, p) the position p as an
unsigned integer value: for every C `int` position p, the recorded position is
the unsigned conversion of p — a value below 2^32, equal to p itself whenever
p is non-negative. -/
theorem add_posting_position_unsigned (doc : XapianDocument) (t : Bytes) (p : Int)
    (hlo : -(2 ^ 31) ≤ p) (hhi : p < 2 ^ 31) :
    (xapian_document_add_posting doc t p).postings =
      doc.postings ++ [(cstring t, uint32OfInt p)] ∧
    uint32OfInt p < 2 ^ 32 ∧
    (0 ≤ p → (uint32OfInt p : Int) = p) := by
  refine ⟨rfl, ?_, ?_⟩
  · unfold uint32OfInt
    omega
  · intro hp
    unfold uint32OfInt
    omega

/-- C8 witness at a concrete document, term and position. -/
theorem add_posting_position_unsigned_witness :
    (xapian_document_add_posting xapian_document_new [116] 7).postings =
      [] ++ [(cstring [116], uint32OfInt 7)] ∧
    uint32OfInt 7 < 2 ^ 32 ∧
    (0 ≤ (7 : Int) → (uint32OfInt 7 : Int) = 7) :=
  add_posting_position_unsigned xapian_document_new [116] 7 (by decide) (by decide)

/-- C9: when a writer already holds the lock on a path, opening a second
writer through `xapian_writable_db_new` fails — NULL handle, LockHeldError
message stored through `errorStr` — while opening a reader on the same path
through `xapian_database_new` succeeds, leaves `errorStr` untouched, and
returns the last committed snapshot. -/
theorem second_writer_fails_reader_succeeds (ps : PathState) (e0 : Option String)
    (hlock : ps.writerLockHeld = true) :
    xapian_writable_db_new (libOpenWritable ps) e0 = (none, some "LockHeldError") ∧
    xapian_database_new (libOpenReadable ps) e0 = (some ps.committedSnapshot, e0) := by
  constructor
  · simp [libOpenWritable, hlock, xapian_writable_db_new]
  · rfl

/-- C9 witness at a concrete locked path state. -/
theorem second_writer_fails_reader_succeeds_witness :
    xapian_writable_db_new (libOpenWritable ⟨true, ⟨3⟩⟩) none =
      (none, some "LockHeldError") ∧
    xapian_database_new (libOpenReadable ⟨true, ⟨3⟩⟩) none = (some ⟨3⟩, none) :=
  second_writer_fails_reader_succeeds ⟨true, ⟨3⟩⟩ none rfl

/-- C10: the non-database constructors are total and never signal failure —
their embeddings have no error channel, mirroring the C functions, which have
no error out-parameter and return unconditionally.  Each returns a valid
handle: the fresh document of `xapian_document_new` has empty data and no
postings; `xapian_query_new` and `xapian_query_combine` return in-range handles
reading back the constructed node; `xapian_enquire_new` returns the enquire
bound to the given database. -/
theorem constructors_total_and_fresh (h : QueryHeap) (t : String) (op : Int)
    (qa qb : QueryHandle) (db : XapianDb) :
    xapian_document_new.data = [] ∧
    xapian_document_new.postings = [] ∧
    (xapian_query_new h t).2 < (xapian_query_new h t).1.length ∧
    heapRead (xapian_query_new h t).1 (xapian_query_new h t).2 = XQuery.term t ∧
    (xapian_query_combine h op qa qb).2 < (xapian_query_combine h op qa qb).1.length ∧
    heapRead (xapian_query_combine h op qa qb).1 (xapian_query_combine h op qa qb).2 =
      XQuery.combine op (heapRead h qa) (heapRead h qb) ∧
    xapian_enquire_new db = ⟨db⟩ := by
  refine ⟨rfl, rfl, ?_, ?_, ?_, ?_, rfl⟩
  · simp [xapian_query_new]
  · exact heapRead_concat h (XQuery.term t)
  · simp [xapian_query_combine]
  · exact heapRead_concat h (XQuery.combine op (heapRead h qa) (heapRead h qb))

end CXapian
